import Mathlib

/-!
Verification development for the FoodNutriSync BLS ingestion pipeline.

Shallow embedding of the ingestion core found in
`app/services/bls_service.py` (class `BLSDataValidator`, class `BLSService`)
and the upload endpoint `replace_bls_dataset` in `app/main.py`.

Modelling conventions:
* A dataframe cell is `Option String`; `none` models a pandas NaN
  (missing value after `read_csv` with `dtype=str`).
* A row is an association list from column name to cell, mirroring a
  pandas Series indexed by the header; lookup takes the first match.
* Numeric values are rationals; Python `float(...)` applied to the
  plain decimal strings this pipeline produces is modelled by
  `parseDecimal` (optional sign, digits, at most one point; exponent
  and underscore forms, which never arise from the normalizer on BLS
  data, are outside the modelled grammar).
* The persistent store is an association list from BLS key to record;
  the PostgreSQL `ON CONFLICT DO UPDATE` statement is modelled as a
  per-record merge that overwrites exactly the supplied columns.
-/

namespace FoodNutriSync

/-- A dataframe cell: `none` is a pandas NaN, `some s` a string value. -/
abbrev Cell := Option String

/-- A dataframe row: association list column-name to cell. -/
abbrev Row := List (String × Cell)

/-- First-match lookup of a column in a row; `none` means the column is
absent from the header (distinct from a NaN cell). -/
def rowLookup (row : Row) (col : String) : Option Cell :=
  match row with
  | [] => none
  | (c, v) :: rest => if c = col then some v else rowLookup rest col

/-- Python `str(row.get(col, ''))`: default empty string when the column
is absent, `"nan"` when the cell is NaN (that is what `str` does to a
float NaN), the string itself otherwise. -/
def pyStrGet (row : Row) (col : String) : String :=
  match rowLookup row col with
  | none => ""
  | some none => "nan"
  | some (some s) => s

/-- The whitespace characters of Python `str.strip()` (the ASCII ones;
the BLS inputs contain no exotic Unicode spaces). -/
def isPySpace (c : Char) : Bool :=
  c = ' ' || c = '\t' || c = '\n' || c = '\r' || c = '\x0b' || c = '\x0c'

/-- Python `s.strip()`: drop leading and trailing whitespace. -/
def pyStrip (s : String) : String :=
  ⟨((s.data.dropWhile isPySpace).reverse.dropWhile isPySpace).reverse⟩

/-- Python `s.upper()` on the ASCII strings of this dataset. -/
def pyUpper (s : String) : String :=
  ⟨s.data.map Char.toUpper⟩

/-- Remove every occurrence of a character, Python `s.replace(c, '')`. -/
def removeChar (s : String) (c : Char) : String :=
  ⟨s.data.filter (fun x => x ≠ c)⟩

/-- Replace every occurrence of a character, Python `s.replace(a, b)`. -/
def replaceChar (s : String) (a b : Char) : String :=
  ⟨s.data.map (fun x => if x = a then b else x)⟩

/-- Python `c in s` on characters. -/
def containsChar (s : String) (c : Char) : Bool :=
  s.data.contains c

/-- Numeric value of a list of decimal digit characters. -/
def digitsVal (cs : List Char) : ℕ :=
  cs.foldl (fun acc c => 10 * acc + (c.toNat - 48)) 0

/-- Split a character list on the decimal point, Python
`s.split('.')` (never returns the empty list). -/
def splitDot (cs : List Char) : List (List Char) :=
  match cs with
  | [] => [[]]
  | c :: rest =>
      if c = '.' then [] :: splitDot rest
      else
        match splitDot rest with
        | h :: t => (c :: h) :: t
        | [] => [[c]]

/-- Python `float(...)` on the plain decimal strings produced by the
nutrient normalizer: optional sign, then digits with at most one
decimal point and at least one digit overall.  Returns `none` exactly
when `float` raises `ValueError` on such strings (the exponent and
underscore forms accepted by `float` never survive normalization of
BLS cells and are outside the modelled grammar). -/
def parseDecimal (s : String) : Option ℚ :=
  match (match s.data with
         | '-' :: t => (true, t)
         | '+' :: t => (false, t)
         | t => (false, t)) with
  | (neg, body) =>
      match splitDot body with
      | [ds] =>
          if ds ≠ [] ∧ ds.all Char.isDigit then
            some (if neg then -(digitsVal ds : ℚ) else (digitsVal ds : ℚ))
          else none
      | [di, df] =>
          if (di ++ df) ≠ [] ∧ di.all Char.isDigit ∧ df.all Char.isDigit then
            some (if neg then
                    -((digitsVal di : ℚ) + (digitsVal df : ℚ) / ((10 : ℚ) ^ df.length))
                  else
                    (digitsVal di : ℚ) + (digitsVal df : ℚ) / ((10 : ℚ) ^ df.length))
          else none
      | _ => none

/-- The regex `^[B-Y]\d{6}$` from `BLSDataValidator.BLS_PATTERN`:
one letter between B and Y followed by exactly six digits. -/
def blsMatch (s : String) : Bool :=
  match s.data with
  | [] => false
  | c :: rest => ('B' ≤ c && c ≤ 'Y') && rest.length == 6 && rest.all Char.isDigit

/-- The `numeric_columns` set of `BLSDataValidator._extract_nutrients`
(iterated here in the textual order of the source). -/
def numericColumns : List String :=
  ["GCAL", "GJ", "GCALZB", "GJZB", "ZW", "ZE", "ZF", "ZK", "ZB", "ZM", "ZO", "ZA",
   "VA", "VAR", "VAC", "VD", "VE", "VEAT", "VK", "VB1", "VB2", "VB3", "VB3A", "VB5",
   "VB6", "VB7", "VB9G", "VB12", "VC",
   "MNA", "MK", "MCA", "MMG", "MP", "MS", "MCL", "MFE", "MZN", "MCU", "MMN", "MF", "MJ",
   "KAM", "KAS", "KAX", "KA", "KMT", "KMF", "KMG", "KM", "KDS", "KDM", "KDL", "KD", "KMD",
   "KPOR", "KPON", "KPG", "KPS", "KP", "KBP", "KBH", "KBU", "KBC", "KBL", "KBW", "KBN",
   "EILE", "ELEU", "ELYS", "EMET", "ECYS", "EPHE", "ETYR", "ETHR", "ETRP", "EVAL",
   "EARG", "EHIS", "EEA",
   "EALA", "EASP", "EGLU", "EGLY", "EPRO", "ESER", "ENA", "EH", "EP",
   "F40", "F60", "F80", "F100", "F120", "F140", "F150", "F160", "F170", "F180",
   "F200", "F220", "F240", "FS",
   "F141", "F151", "F161", "F171", "F181", "F201", "F221", "F241", "FU",
   "F162", "F164", "F182", "F183", "F184", "F193", "F202", "F203", "F204", "F205",
   "F222", "F223", "F224", "F225", "F226", "FP", "FK", "FM", "FL", "FO3", "FO6",
   "FG", "FC",
   "GFPS", "GKB", "GMKO", "GP"]

/-- The German-number normalization inside `_extract_nutrients`: when a
value contains both a period and a comma, drop every period (thousands
separator) and turn commas into periods; otherwise just turn commas
into periods. -/
def normalizeGerman (s : String) : String :=
  if containsChar s '.' && containsChar s ',' then
    replaceChar (removeChar s '.') ',' '.'
  else
    replaceChar s ',' '.'

/-- One loop iteration of `_extract_nutrients` for column `col`:
`some (col, q)` when the cell is present, non-NaN, nonempty after
strip, parses after normalization, and is nonnegative; `none`
otherwise (absent cell, NaN, empty, parse failure, or negative). -/
def extractCell (row : Row) (col : String) : Option (String × ℚ) :=
  match rowLookup row col with
  | some (some s) =>
      if pyStrip s = "" then none
      else
        match parseDecimal (normalizeGerman (pyStrip s)) with
        | some q => if 0 ≤ q then some (col, q) else none
        | none => none
  | _ => none

/-- `BLSDataValidator._extract_nutrients`: best-effort per-cell
extraction over the known numeric columns. -/
def extractNutrients (row : Row) : List (String × ℚ) :=
  numericColumns.filterMap (fun col => extractCell row col)

/-- A record field value: display strings or numeric nutrient values. -/
inductive Val where
  | vstr : String → Val
  | vnum : ℚ → Val
deriving DecidableEq, Repr

/-- A validated upload record, mirroring the Python dict built by
`validate_dataframe` (keys are real DB column names). -/
abbrev Record := List (String × Val)

/-- The `ST` branch of `validate_dataframe`: the German name is kept
when the column exists, the cell is non-NaN and nonempty after strip. -/
def stVal (row : Row) : Option String :=
  match rowLookup row "ST" with
  | some (some s) => if pyStrip s = "" then none else some (pyStrip s)
  | _ => none

/-- The `STE` branch of `validate_dataframe`, same rule for the
English name. -/
def steVal (row : Row) : Option String :=
  match rowLookup row "STE" with
  | some (some s) => if pyStrip s = "" then none else some (pyStrip s)
  | _ => none

/-- The invalid-identifier error message of `validate_dataframe`. -/
def invalidIdMsg (n : ℕ) (bls : String) : String :=
  "Row " ++ toString n ++ ": Invalid BLS number \x27" ++ bls ++ "\x27"

/-- The no-data error message of `validate_dataframe`. -/
def noDataMsg (n : ℕ) : String :=
  "Row " ++ toString n ++ ": No valid data beyond BLS number"

/-- The record dict built by the `validate_dataframe` loop body: the
identifier, then (when present and nonempty) the two names, then the
extracted nutrients. -/
def rowRecord (bls : String) (row : Row) : Record :=
  [("SBLS", Val.vstr bls)] ++
  (match stVal row with
   | some s => [("ST", Val.vstr s)]
   | none => []) ++
  (match steVal row with
   | some s => [("STE", Val.vstr s)]
   | none => []) ++
  (extractNutrients row).map (fun p => (p.1, Val.vnum p.2))

/-- The `has_valid_data` flag of the loop body: some field beyond the
identifier survived. -/
def hasValidData (row : Row) : Bool :=
  (stVal row).isSome || (steVal row).isSome || !(extractNutrients row).isEmpty

/-- One iteration of the `validate_dataframe` loop for the row at
1-based position `n`: either the built record or the error string.
The per-row body is total, so the enclosing `except` clause of the
source is unreachable in the model. -/
def processRow (n : ℕ) (row : Row) : Record ⊕ String :=
  if pyStrip (pyStrGet row "SBLS") = "" ∨
      blsMatch (pyStrip (pyStrGet row "SBLS")) = false then
    Sum.inr (invalidIdMsg n (pyStrip (pyStrGet row "SBLS")))
  else if hasValidData row then
    Sum.inl (rowRecord (pyStrip (pyStrGet row "SBLS")) row)
  else
    Sum.inr (noDataMsg n)

/-- The `validate_dataframe` loop from 1-based position `n` on:
accumulates valid records and error strings in row order. -/
def validateFrom (n : ℕ) (df : List Row) : List Record × List String :=
  match df with
  | [] => ([], [])
  | row :: rest =>
      let acc := validateFrom (n + 1) rest
      match processRow n row with
      | Sum.inl r => (r :: acc.1, acc.2)
      | Sum.inr e => (acc.1, e :: acc.2)

/-- `BLSDataValidator.validate_dataframe`: row numbering starts at 1. -/
def validateDataframe (df : List Row) : List Record × List String :=
  validateFrom 1 df

/-- First-match lookup of a field in a record. -/
def recLookup (r : Record) (k : String) : Option Val :=
  match r with
  | [] => none
  | (c, v) :: rest => if c = k then some v else recLookup rest k

/-- The real DB column names of the `BLSNutrition` table in
`app/models.py` (the key, the two names, and every nutrient column:
the same set as `numericColumns` plus SBLS, ST, STE). -/
def dbCols : List String :=
  "SBLS" :: "ST" :: "STE" :: numericColumns

/-- The record filter of `_bulk_upsert_with_counts`: keep only fields
whose key is a real DB column. -/
def filterRecord (r : Record) : Record :=
  r.filter (fun p => dbCols.contains p.1)

/-- The persistent keyed store: BLS number to stored record. -/
abbrev Store := List (String × Record)

/-- `ON CONFLICT DO UPDATE`: the supplied fields of `new` overwrite the
stored fields, fields not supplied are preserved. -/
def mergeRecord (old new : Record) : Record :=
  new ++ old.filter (fun p => (recLookup new p.1).isNone)

/-- Apply one record to the store: update the existing row for its key
or insert a fresh one. -/
def upsertOne (store : Store) (r : Record) : Store :=
  match recLookup r "SBLS" with
  | some (Val.vstr k) =>
      if (store.lookup k).isSome then
        store.map (fun p => if p.1 = k then (k, mergeRecord p.2 r) else p)
      else
        store ++ [(k, r)]
  | _ => store

/-- `BLSService._bulk_upsert_with_counts`: filters the records to DB
columns, executes one upsert statement for the batch, and returns the
pair (inserted, updated).  The source hard-codes the return value
`(0, len(filtered_records))` behind the comment "Return conservative
estimate - assume all are updates". -/
def bulkUpsertWithCounts (store : Store) (records : List Record) :
    (ℕ × ℕ) × Store :=
  if records = [] then ((0, 0), store)
  else
    let filtered := (records.map filterRecord).filter
      (fun r => r ≠ [] ∧ (recLookup r "SBLS").isSome)
    if filtered = [] then ((0, 0), store)
    else ((0, filtered.length), filtered.foldl upsertOne store)

/-- `BLSUploadResponse` from `app/schemas.py`. -/
structure UploadResponse where
  added : ℕ
  updated : ℕ
  failed : ℕ
  errors : List String
deriving DecidableEq, Repr

/-- The slice start offsets of `range(0, total, step)`. -/
def batchStarts (total step : ℕ) : List ℕ :=
  (List.range ((total + step - 1) / step)).map (fun i => i * step)

/-- Fixed-size batching of the valid records: the Python loop
`for i in range(0, len(valid_records), batch_size)` slicing
`valid_records[i:i + batch_size]` (`batch_size = 1000` in
`upload_data`). -/
def chunkList (n : ℕ) (l : List Record) : List (List Record) :=
  (batchStarts l.length n).map (fun i => (l.drop i).take n)

/-- `BLSService.upload_data`: validate the dataframe, apply the valid
records in batches of 1000 accumulating the per-batch counts, and
build the response with the error list truncated to 10 entries. -/
def uploadData (df : List Row) (store : Store) : UploadResponse × Store :=
  let vr := validateDataframe df
  if vr.1 = [] then
    (⟨0, 0, vr.2.length, vr.2.take 10⟩, store)
  else
    let step := (chunkList 1000 vr.1).foldl
      (fun (acc : (ℕ × ℕ) × Store) batch =>
        let r := bulkUpsertWithCounts acc.2 batch
        ((acc.1.1 + r.1.1, acc.1.2 + r.1.2), r.2))
      ((0, 0), store)
    (⟨step.1.1, step.1.2, vr.2.length, vr.2.take 10⟩, step.2)

/-- The row pre-filter of `replace_bls_dataset` in `app/main.py`:
`df.dropna(subset=['SBLS'])` followed by dropping rows whose SBLS
value is empty after strip. -/
def dropEmptySBLS (df : List Row) : List Row :=
  df.filter (fun row =>
    match rowLookup row "SBLS" with
    | some (some s) => pyStrip s ≠ ""
    | _ => false)

/-- The data-processing tail of the `replace_bls_dataset` endpoint
(`app/main.py` lines 249-271): filter empty-identifier rows, then call
`upload_data`.  The endpoint issues no delete: the store it starts
from is left in place and merely upserted into. -/
def replaceDataset (df : List Row) (store : Store) : UploadResponse × Store :=
  uploadData (dropEmptySBLS df) store

/-- Split a character list at every occurrence of a separator. -/
def splitOnCharAux (sep : Char) : List Char → List (List Char)
  | [] => [[]]
  | c :: rest =>
      if c = sep then [] :: splitOnCharAux sep rest
      else
        match splitOnCharAux sep rest with
        | h :: t => (c :: h) :: t
        | [] => [[c]]

/-- Split a string at every occurrence of a separator character. -/
def splitOnChar (sep : Char) (s : String) : List String :=
  (splitOnCharAux sep s.data).map String.mk

/-- `pd.read_csv(..., sep='\t', dtype=str)` restricted to what the
claims need: first nonblank line is the header, each later line is
split on tabs, cells are matched to header columns by position, an
empty or missing cell is NaN. -/
def parseTsv (content : String) : List Row :=
  match (splitOnChar '\n' content).filter (fun l => l ≠ "") with
  | [] => []
  | header :: dataLines =>
      dataLines.map (fun line =>
        (splitOnChar '\t' header).enum.map (fun p =>
          (p.2, match (splitOnChar '\t' line).get? p.1 with
                | some "" => none
                | some s => some s
                | none => none)))

/-- A raw input byte. -/
abbrev Byte := Fin 256

/-- One byte under the windows-1252 codec: bytes below 0x80 and from
0xA0 on map to themselves, the 0x80-0x9F block maps through the
windows-1252 table, and the five unassigned bytes fail. -/
def decodeCp1252Byte (b : Byte) : Option ℕ :=
  if b.val < 0x80 ∨ 0xA0 ≤ b.val then some b.val
  else
    match b.val with
    | 0x80 => some 0x20AC
    | 0x82 => some 0x201A
    | 0x83 => some 0x0192
    | 0x84 => some 0x201E
    | 0x85 => some 0x2026
    | 0x86 => some 0x2020
    | 0x87 => some 0x2021
    | 0x88 => some 0x02C6
    | 0x89 => some 0x2030
    | 0x8A => some 0x0160
    | 0x8B => some 0x2039
    | 0x8C => some 0x0152
    | 0x8E => some 0x017D
    | 0x91 => some 0x2018
    | 0x92 => some 0x2019
    | 0x93 => some 0x201C
    | 0x94 => some 0x201D
    | 0x95 => some 0x2022
    | 0x96 => some 0x2013
    | 0x97 => some 0x2014
    | 0x98 => some 0x02DC
    | 0x99 => some 0x2122
    | 0x9A => some 0x0161
    | 0x9B => some 0x203A
    | 0x9C => some 0x0153
    | 0x9E => some 0x017E
    | 0x9F => some 0x0178
    | _ => none

/-- Python `content.decode('windows-1252')` (and `'cp1252'`, the same
codec): succeeds iff every byte is assigned. -/
def decodeWindows1252 (bs : List Byte) : Option (List ℕ) :=
  bs.mapM decodeCp1252Byte

/-- Python `content.decode('iso-8859-1')`: total, every byte is its
own code point. -/
def decodeLatin1 (bs : List Byte) : Option (List ℕ) :=
  some (bs.map Fin.val)

/-- The decode logic of `replace_bls_dataset` (`app/main.py` lines
234-246): try the detected/BOM-chosen primary encoding (abstracted as
an arbitrary decoding function), then the fallback list
windows-1252, iso-8859-1, cp1252 in order; when everything fails the
endpoint raises HTTP 400, modelled as `none`. -/
def decodeFile (primary : List Byte → Option (List ℕ)) (content : List Byte) :
    Option (List ℕ) :=
  match primary content with
  | some t => some t
  | none =>
      match decodeWindows1252 content with
      | some t => some t
      | none =>
          match decodeLatin1 content with
          | some t => some t
          | none =>
              match decodeWindows1252 content with
              | some t => some t
              | none => none

/-- All rows of a column removed, used to state that a dropped nutrient
cell behaves exactly as an absent cell. -/
def eraseCol (row : Row) (col : String) : Row :=
  row.filter (fun p => p.1 ≠ col)

/-- A nutrient cell the extractor drops for a value-level reason: the
cell is present and nonempty after strip, but its normalized form does
not parse as a decimal or parses to a negative value. -/
def badNutrientCell (row : Row) (col : String) : Prop :=
  ∃ s, rowLookup row col = some (some s) ∧ pyStrip s ≠ "" ∧
    (parseDecimal (normalizeGerman (pyStrip s)) = none ∨
     ∃ q, parseDecimal (normalizeGerman (pyStrip s)) = some q ∧ q < 0)

/-- The per-row outcome projected to its error, used to characterize
the row numbering of the error list. -/
def rowErrOpt (n : ℕ) (row : Row) : Option String :=
  match processRow n row with
  | Sum.inr e => some e
  | Sum.inl _ => none

/-- Concrete upload used to exhibit the row numbering of error
messages: data line 1 has an empty identifier and is dropped by the
endpoint pre-filter, data line 2 carries an invalid identifier. -/
def fileWithDroppedRow : String :=
  "SBLS\tST\n\tFoo\nBADBAD\tApfel\n"

/-- Concrete first upload (file A) for the full-replacement scenario. -/
def dfFileA : List Row :=
  [[("SBLS", some "B111111"), ("ST", some "Alt")]]

/-- Concrete second upload (file B) for the full-replacement scenario;
its key set is disjoint from file A. -/
def dfFileB : List Row :=
  [[("SBLS", some "C222222"), ("ST", some "Neu")]]

/-- Concrete two fresh valid rows, keys absent from the empty store. -/
def dfTwoFresh : List Row :=
  [[("SBLS", some "T123456"), ("ST", some "Apfel"), ("GCAL", some "52")],
   [("SBLS", some "T789012"), ("ST", some "Birne"), ("GCAL", some "57")]]

/-- Concrete row with one unparseable nutrient cell among good data. -/
def rowBadCell : Row :=
  [("SBLS", some "B123456"), ("ST", some "Apfel"),
   ("GCAL", some "abc"), ("ZE", some "5")]

section Lemmas

/-- The extractor tags every produced pair with the column it came
from. -/
theorem extractCell_key (row : Row) (c : String) (p : String × ℚ)
    (h : extractCell row c = some p) : p.1 = c := by
  unfold extractCell at h
  cases hl : rowLookup row c with
  | none =>
      simp only [hl] at h
      exact Option.noConfusion h
  | some cell =>
      cases cell with
      | none =>
          simp only [hl] at h
          exact Option.noConfusion h
      | some s =>
          simp only [hl] at h
          by_cases he : pyStrip s = ""
          · rw [if_pos he] at h
            exact Option.noConfusion h
          · rw [if_neg he] at h
            cases hp : parseDecimal (normalizeGerman (pyStrip s)) with
            | none =>
                simp only [hp] at h
                exact Option.noConfusion h
            | some q =>
                simp only [hp] at h
                by_cases hq : 0 ≤ q
                · rw [if_pos hq] at h
                  cases h
                  rfl
                · rw [if_neg hq] at h
                  exact Option.noConfusion h

/-- If the extractor drops a column, that column has no entry in the
extracted association list. -/
theorem filterMap_extract_lookup_none (row : Row) (col : String)
    (cols : List String) (h : extractCell row col = none) :
    (cols.filterMap (fun c => extractCell row c)).lookup col = none := by
  induction cols with
  | nil => rfl
  | cons c cs ih =>
      simp only [List.filterMap_cons]
      cases hc : extractCell row c with
      | none => exact ih
      | some p =>
          have hk := extractCell_key row c p hc
          have hcc : c ≠ col := by
            intro heq
            rw [heq, h] at hc
            exact absurd hc (by simp)
          cases p with
          | mk k q =>
              simp only at hk
              subst hk
              have hbe : (col == k) = false :=
                beq_eq_false_iff_ne.mpr (fun hh => hcc hh.symm)
              simp only [List.lookup, hbe]
              exact ih

/-- Removing a column does not change lookups of other columns. -/
theorem rowLookup_eraseCol_ne (row : Row) (col c : String) (h : c ≠ col) :
    rowLookup (eraseCol row col) c = rowLookup row c := by
  induction row with
  | nil => rfl
  | cons p rest ih =>
      by_cases hp : p.1 = col
      · have : ¬(p.1 = c) := by rw [hp]; exact fun hc => h hc.symm
        simp only [eraseCol, List.filter_cons] at ih ⊢
        rw [hp]
        simp only [rowLookup]
        rw [if_neg (by simp), if_neg this]
        exact ih
      · simp only [eraseCol, List.filter_cons] at ih ⊢
        rw [if_pos (by simpa using hp)]
        simp only [rowLookup]
        by_cases hc : p.1 = c
        · rw [if_pos hc, if_pos hc]
        · rw [if_neg hc, if_neg hc]
          exact ih

/-- Removing a column makes its lookup absent. -/
theorem rowLookup_eraseCol_self (row : Row) (col : String) :
    rowLookup (eraseCol row col) col = none := by
  induction row with
  | nil => rfl
  | cons p rest ih =>
      by_cases hp : p.1 = col
      · simp only [eraseCol, List.filter_cons] at ih ⊢
        rw [if_neg (by simpa using hp)]
        exact ih
      · simp only [eraseCol, List.filter_cons] at ih ⊢
        rw [if_pos (by simpa using hp)]
        simp only [rowLookup]
        rw [if_neg hp]
        exact ih

/-- Extraction from a row with a column removed: the removed column
yields nothing, every other column is unaffected. -/
theorem extractCell_eraseCol (row : Row) (col c : String) :
    extractCell (eraseCol row col) c =
      if c = col then none else extractCell row c := by
  by_cases hc : c = col
  · subst hc
    rw [if_pos rfl]
    unfold extractCell
    rw [rowLookup_eraseCol_self]
  · rw [if_neg hc]
    unfold extractCell
    rw [rowLookup_eraseCol_ne row col c hc]

/-- The valid records and the error messages of `validateFrom`
partition the input rows. -/
theorem validateFrom_partition (df : List Row) :
    ∀ n, (validateFrom n df).1.length + (validateFrom n df).2.length =
      df.length := by
  induction df with
  | nil => intro n; rfl
  | cons row rest ih =>
      intro n
      have h := ih (n + 1)
      simp only [validateFrom]
      cases hp : processRow n row with
      | inl r =>
          simp only [hp, List.length_cons]
          omega
      | inr e =>
          simp only [hp, List.length_cons]
          omega

/-- The error list of `validateFrom` is the rowwise error of each row,
numbered by its position in the dataframe. -/
theorem validateFrom_errors (df : List Row) :
    ∀ n, (validateFrom n df).2 =
      (List.enumFrom n df).filterMap (fun p => rowErrOpt p.1 p.2) := by
  induction df with
  | nil => intro n; rfl
  | cons row rest ih =>
      intro n
      simp only [validateFrom, List.enumFrom, List.filterMap_cons]
      cases hp : processRow n row with
      | inl r => simpa [rowErrOpt, hp] using ih (n + 1)
      | inr e => simpa [rowErrOpt, hp] using ih (n + 1)

end Lemmas

/-- Claim C10: row validation is total and partitions its input: every
input row contributes exactly one entry to exactly one of the two
outputs, so the number of validated records plus the number of error
messages equals the number of input rows. -/
theorem validate_dataframe_partitions (df : List Row) :
    (validateDataframe df).1.length + (validateDataframe df).2.length =
      df.length :=
  validateFrom_partition df 1

/-- Claim C7: in every ingestion report the error list is the first 10
error messages (so never more than 10 entries) while the failed count
is the full number of failed rows. -/
theorem report_errors_truncated_failed_exact (df : List Row) (store : Store) :
    (uploadData df store).1.failed = (validateDataframe df).2.length ∧
    (uploadData df store).1.errors = (validateDataframe df).2.take 10 ∧
    (uploadData df store).1.errors.length ≤ 10 := by
  simp only [uploadData]
  by_cases hv : (validateDataframe df).1 = []
  · rw [if_pos hv]
    exact ⟨rfl, rfl, by simp [List.length_take]⟩
  · rw [if_neg hv]
    exact ⟨rfl, rfl, by simp [List.length_take]⟩

/-- Claim C9: the decoder never fails: whatever the primary
(detected or BOM-chosen) encoding does, the fallback chain always
produces a decoding, so the undecodable branch of the endpoint is
unreachable and the pipeline continues. -/
theorem decode_never_fails (primary : List Byte → Option (List ℕ))
    (content : List Byte) :
    (decodeFile primary content).isSome = true := by
  unfold decodeFile
  cases primary content with
  | some t => rfl
  | none =>
      cases decodeWindows1252 content with
      | some t => rfl
      | none => rfl

/-- Claim C5: locale-aware decimal normalization: a value containing
both separators has the thousands separator stripped and the decimal
comma turned into a period, otherwise commas become periods; hence
"1.234,56" parses to 1234.56 and "50,5" parses to the same value as
"50.50". -/
theorem decimal_normalization_locale
    :
    (∀ s : String, containsChar s '.' = true → containsChar s ',' = true →
        normalizeGerman s = replaceChar (removeChar s '.') ',' '.') ∧
    (∀ s : String, ¬(containsChar s '.' = true ∧ containsChar s ',' = true) →
        normalizeGerman s = replaceChar s ',' '.') ∧
    parseDecimal (normalizeGerman "1.234,56") = some ((123456 : ℚ) / 100) ∧
    parseDecimal (normalizeGerman "50,5") =
      parseDecimal (normalizeGerman "50.50") ∧
    parseDecimal (normalizeGerman "50,5") = some ((505 : ℚ) / 10) := by
  refine ⟨?_, ?_, ?_, ?_, ?_⟩
  · intro s h1 h2
    unfold normalizeGerman
    rw [if_pos (by rw [h1, h2]; rfl)]
  · intro s h
    unfold normalizeGerman
    rw [if_neg ?_]
    intro hb
    rcases Bool.and_eq_true _ _ |>.mp hb with ⟨h1, h2⟩
    exact h ⟨h1, h2⟩
  · rw [show normalizeGerman "1.234,56" = "1234.56" from by decide]
    show some ((digitsVal ['1', '2', '3', '4'] : ℚ) +
        (digitsVal ['5', '6'] : ℚ) / ((10 : ℚ) ^ 2)) =
      some ((123456 : ℚ) / 100)
    rw [show digitsVal ['1', '2', '3', '4'] = 1234 from by decide]
    rw [show digitsVal ['5', '6'] = 56 from by decide]
    rw [Option.some_inj]
    norm_num
  · rw [show normalizeGerman "50,5" = "50.5" from by decide]
    rw [show normalizeGerman "50.50" = "50.50" from by decide]
    show some ((digitsVal ['5', '0'] : ℚ) +
        (digitsVal ['5'] : ℚ) / ((10 : ℚ) ^ 1)) =
      some ((digitsVal ['5', '0'] : ℚ) +
        (digitsVal ['5', '0'] : ℚ) / ((10 : ℚ) ^ 2))
    rw [show digitsVal ['5', '0'] = 50 from by decide]
    rw [show digitsVal ['5'] = 5 from by decide]
    rw [Option.some_inj]
    norm_num
  · rw [show normalizeGerman "50,5" = "50.5" from by decide]
    show some ((digitsVal ['5', '0'] : ℚ) +
        (digitsVal ['5'] : ℚ) / ((10 : ℚ) ^ 1)) =
      some ((505 : ℚ) / 10)
    rw [show digitsVal ['5', '0'] = 50 from by decide]
    rw [show digitsVal ['5'] = 5 from by decide]
    rw [Option.some_inj]
    norm_num

/-- Witness for claim C5 at concrete inputs: the German-format string
takes the strip-thousands branch and the comma-only string takes the
comma-to-period branch. -/
theorem decimal_normalization_locale_witness :
    normalizeGerman "1.234,56" = replaceChar (removeChar "1.234,56" '.') ',' '.' ∧
    normalizeGerman "50,5" = replaceChar "50,5" ',' '.' :=
  ⟨decimal_normalization_locale.1 "1.234,56" (by decide) (by decide),
   decimal_normalization_locale.2.1 "50,5" (by decide)⟩

/-- Claim C4 (counterexample): the identifier is not uppercased before
matching: the trimmed-and-uppercased form of "b123456" matches the
grammar, yet validation rejects the row carrying it. -/
theorem identifier_lowercase_rejected :
    blsMatch (pyUpper (pyStrip "b123456")) = true ∧
    validateDataframe [[("SBLS", some "b123456"), ("ST", some "Apfel")]] =
      ([], ["Row 1: Invalid BLS number \x27b123456\x27"]) :=
  ⟨by decide, by decide⟩

/-- Claim C4 (amended): the identifier cell is trimmed (not uppercased)
and matched against one letter B-Y followed by six digits: a row whose
trimmed identifier matches is never rejected for its identifier, and a
row whose trimmed identifier does not match is rejected with an error
carrying the row number and the offending trimmed value. -/
theorem identifier_trimmed_grammar (row : Row) (n : ℕ) :
    (blsMatch (pyStrip (pyStrGet row "SBLS")) = true →
        (processRow n row).isLeft = true ∨
          processRow n row = Sum.inr (noDataMsg n)) ∧
    (blsMatch (pyStrip (pyStrGet row "SBLS")) = false →
        processRow n row =
          Sum.inr (invalidIdMsg n (pyStrip (pyStrGet row "SBLS")))) := by
  constructor
  · intro hm
    unfold processRow
    have hc : ¬(pyStrip (pyStrGet row "SBLS") = "" ∨
        blsMatch (pyStrip (pyStrGet row "SBLS")) = false) := by
      rintro (h1 | h2)
      · rw [h1] at hm
        exact absurd hm (by decide)
      · rw [hm] at h2
        exact Bool.noConfusion h2
    rw [if_neg hc]
    by_cases hd : hasValidData row
    · rw [if_pos hd]
      left
      rfl
    · rw [if_neg hd]
      right
      rfl
  · intro hm
    unfold processRow
    rw [if_pos (Or.inr hm)]

/-- Witness for claim C4 at concrete rows: a valid trimmed identifier
passes the identifier check, an invalid one produces the row error
with the offending value. -/
theorem identifier_trimmed_grammar_witness :
    ((processRow 1 [("SBLS", some "B123456"), ("ST", some "Apfel")]).isLeft = true ∨
      processRow 1 [("SBLS", some "B123456"), ("ST", some "Apfel")] =
        Sum.inr (noDataMsg 1)) ∧
    processRow 1 [("SBLS", some "BADBAD"), ("ST", some "Apfel")] =
      Sum.inr (invalidIdMsg 1 "BADBAD") := by
  constructor
  · exact (identifier_trimmed_grammar
      [("SBLS", some "B123456"), ("ST", some "Apfel")] 1).1 (by decide)
  · exact (identifier_trimmed_grammar
      [("SBLS", some "BADBAD"), ("ST", some "Apfel")] 1).2 (by decide)

/-- Claim C3 (counterexample): a row with a valid identifier, no name
cell, and one nutrient cell is accepted with zero errors, so missing
names are not rejected by the validation path in use. -/
theorem missing_name_row_accepted :
    validateDataframe [[("SBLS", some "B123456"), ("GCAL", some "52")]] =
      ([[("SBLS", Val.vstr "B123456"), ("GCAL", Val.vnum 52)]], []) := by
  rfl

/-- Claim C3 (amended): a row with a valid identifier and an absent or
empty-after-trim name is rejected only when no data beyond the
identifier survives, with the error naming the row number (but not the
name); as soon as an alternate name or any nutrient survives, the
missing-name row is accepted.  No name-length check exists on this
path. -/
theorem missing_name_policy (row : Row) (n : ℕ)
    (hid : blsMatch (pyStrip (pyStrGet row "SBLS")) = true)
    (hst : stVal row = none) :
    (steVal row = none → extractNutrients row = [] →
        processRow n row = Sum.inr (noDataMsg n)) ∧
    ((steVal row).isSome = true ∨ extractNutrients row ≠ [] →
        (processRow n row).isLeft = true) := by
  have hc : ¬(pyStrip (pyStrGet row "SBLS") = "" ∨
      blsMatch (pyStrip (pyStrGet row "SBLS")) = false) := by
    rintro (h1 | h2)
    · rw [h1] at hid
      exact absurd hid (by decide)
    · rw [hid] at h2
      exact Bool.noConfusion h2
  constructor
  · intro hste hnut
    unfold processRow
    rw [if_neg hc]
    have hd : hasValidData row = false := by
      simp [hasValidData, hst, hste, hnut]
    rw [if_neg (by simp [hd])]
  · intro hor
    unfold processRow
    rw [if_neg hc]
    have hd : hasValidData row = true := by
      cases hor with
      | inl h => simp [hasValidData, h]
      | inr h =>
          have hne : (extractNutrients row).isEmpty = false := by
            simpa [List.isEmpty_iff] using h
          simp [hasValidData, hne]
    rw [if_pos (by simp [hd])]
    rfl

/-- Witness for claim C3 at concrete rows: an identifier-only row is
rejected with the no-data message, while a missing-name row with one
nutrient is accepted. -/
theorem missing_name_policy_witness :
    processRow 1 [("SBLS", some "B123456")] = Sum.inr (noDataMsg 1) ∧
    (processRow 1 [("SBLS", some "B123456"), ("GCAL", some "52")]).isLeft = true := by
  constructor
  · exact (missing_name_policy [("SBLS", some "B123456")] 1
      (by decide) (by rfl)).1 (by rfl) (by rfl)
  · exact (missing_name_policy [("SBLS", some "B123456"), ("GCAL", some "52")] 1
      (by decide) (by rfl)).2 (Or.inr (by decide))

/-- Claim C6: nutrient cell errors are local to the cell: an
unparseable or negative nutrient cell is absent from the extracted
nutrient set, extraction behaves exactly as if the cell were not
there, and a row with a valid identifier and a name is still
accepted. -/
theorem nutrient_cell_error_local (row : Row) (col : String) (n : ℕ)
    (hbad : badNutrientCell row col)
    (hid : blsMatch (pyStrip (pyStrGet row "SBLS")) = true) :
    (extractNutrients row).lookup col = none ∧
    extractNutrients row = extractNutrients (eraseCol row col) ∧
    ((stVal row).isSome = true → (processRow n row).isLeft = true) := by
  have hcell : extractCell row col = none := by
    obtain ⟨s, hs, hne, hbadv⟩ := hbad
    unfold extractCell
    simp only [hs]
    rw [if_neg hne]
    cases hbadv with
    | inl hp => simp only [hp]
    | inr hq =>
        obtain ⟨q, hpq, hneg⟩ := hq
        simp only [hpq]
        rw [if_neg (not_le.mpr hneg)]
  refine ⟨filterMap_extract_lookup_none row col numericColumns hcell, ?_, ?_⟩
  · unfold extractNutrients
    apply List.filterMap_congr
    intro c hc
    rw [extractCell_eraseCol row col c]
    by_cases hcc : c = col
    · rw [if_pos hcc, hcc]
      exact hcell
    · rw [if_neg hcc]
  · intro hst
    have hc : ¬(pyStrip (pyStrGet row "SBLS") = "" ∨
        blsMatch (pyStrip (pyStrGet row "SBLS")) = false) := by
      rintro (h1 | h2)
      · rw [h1] at hid
        exact absurd hid (by decide)
      · rw [hid] at h2
        exact Bool.noConfusion h2
    unfold processRow
    rw [if_neg hc]
    have hd : hasValidData row = true := by
      simp [hasValidData, hst]
    rw [if_pos (by simp [hd])]
    rfl

/-- Witness for claim C6 at a concrete row: the unparseable GCAL cell
"abc" is dropped, extraction equals extraction without that cell, and
the row is accepted. -/
theorem nutrient_cell_error_local_witness :
    (extractNutrients rowBadCell).lookup "GCAL" = none ∧
    extractNutrients rowBadCell = extractNutrients (eraseCol rowBadCell "GCAL") ∧
    (processRow 1 rowBadCell).isLeft = true := by
  have h := nutrient_cell_error_local rowBadCell "GCAL" 1
    ⟨"abc", by rfl, by decide, Or.inl (by rfl)⟩ (by decide)
  exact ⟨h.1, h.2.1, h.2.2 (by decide)⟩

/-- Claim C8 (counterexample): the failing data row sits on file line 3
(1-based, after the header line and a dropped empty-identifier line),
yet its error message numbers it Row 1, so error row numbers do not
match original file lines. -/
theorem error_row_number_not_file_line :
    (validateDataframe (dropEmptySBLS (parseTsv fileWithDroppedRow))).2 =
      ["Row 1: Invalid BLS number \x27BADBAD\x27"] ∧
    (splitOnChar '\n' fileWithDroppedRow).get? 2 = some "BADBAD\tApfel" ∧
    (1 : ℕ) ≠ 3 :=
  ⟨by decide, by decide, by decide⟩

/-- Claim C8 (amended): every row-level error carries the 1-based
position of its row within the dataframe handed to the validator
(after the header is consumed and empty-identifier rows are dropped),
not the original file line. -/
theorem error_row_numbers_positional (df : List Row) :
    (validateDataframe df).2 =
      (List.enumFrom 1 df).filterMap (fun p => rowErrOpt p.1 p.2) :=
  validateFrom_errors df 1

/-- Claim C1 (code evaluated at the failing input): two valid rows
whose keys are absent from the empty store are reported as
added = 0 and updated = 2, not added = 2 as the accurate-count claim
requires. -/
theorem fresh_rows_counted_as_updates :
    (uploadData dfTwoFresh []).1 =
      { added := 0, updated := 2, failed := 0, errors := [] } := by
  rfl

/-- Claim C2 (code evaluated at the failing input): after ingesting
file A and then file B through the full-replacement endpoint, the
store still contains the row of file A, whose key is not among the
valid rows of file B. -/
theorem replace_mode_previous_rows_survive :
    ((replaceDataset dfFileB ((replaceDataset dfFileA []).2)).2).lookup "B111111" =
      some [("SBLS", Val.vstr "B111111"), ("ST", Val.vstr "Alt")] ∧
    (validateDataframe dfFileB).1.map (fun r => recLookup r "SBLS") =
      [some (Val.vstr "C222222")] :=
  ⟨by rfl, by rfl⟩

end FoodNutriSync
